import Mathlib

/-!
Shallow embedding of the CPI dashboard's filter-and-render pipeline
(`cpi_update.py`).  Rows of the loaded `cpi_data` table are modelled as a
`List` of records; the pandas operations used by the callbacks (boolean-mask
filtering, `sort_values`, `unique`, `isin`, `zfill`) are modelled as pure
list functions; strings used as sort keys are modelled as lists of character
codes so that pandas' lexicographic string ordering is explicit.
-/

namespace CPI

/-- Lexicographic strict comparison of character-code lists, matching Python
string comparison (`s1 < s2`): compare elementwise at the first difference;
a strict prefix is smaller. -/
def lexLt : List Nat → List Nat → Bool
  | [], [] => false
  | [], _ :: _ => true
  | _ :: _, [] => false
  | a :: as, b :: bs => if a < b then true else if b < a then false else lexLt as bs

/-- Non-strict lexicographic comparison: `x ≤ y` iff `¬ (y < x)`. -/
def lexLe (x y : List Nat) : Bool := !(lexLt y x)

theorem lexLt_asymm : ∀ x y : List Nat, lexLt x y = true → lexLt y x = false := by
  intro x
  induction x with
  | nil =>
    intro y h
    cases y with
    | nil => simp [lexLt] at h
    | cons b bs => simp [lexLt]
  | cons a as ih =>
    intro y h
    cases y with
    | nil => simp [lexLt] at h
    | cons b bs =>
      simp only [lexLt] at h ⊢
      rcases Nat.lt_trichotomy a b with h1 | h1 | h1
      · simp [h1, Nat.lt_asymm h1]
      · subst h1
        simp only [Nat.lt_irrefl, if_false] at h ⊢
        exact ih bs h
      · simp [h1, Nat.lt_asymm h1] at h

theorem lexLt_trans :
    ∀ x y z : List Nat, lexLt x y = true → lexLt y z = true → lexLt x z = true := by
  intro x
  induction x with
  | nil =>
    intro y z hxy hyz
    cases y with
    | nil => simp [lexLt] at hxy
    | cons b bs =>
      cases z with
      | nil => simp [lexLt] at hyz
      | cons c cs => simp [lexLt]
  | cons a as ih =>
    intro y z hxy hyz
    cases y with
    | nil => simp [lexLt] at hxy
    | cons b bs =>
      cases z with
      | nil => simp [lexLt] at hyz
      | cons c cs =>
        simp only [lexLt] at hxy hyz ⊢
        rcases Nat.lt_trichotomy a b with h1 | h1 | h1
        · rcases Nat.lt_trichotomy b c with h2 | h2 | h2
          · have : a < c := Nat.lt_trans h1 h2
            simp [this]
          · subst h2; simp [h1]
          · simp [h2, Nat.lt_asymm h2] at hyz
        · subst h1
          simp only [Nat.lt_irrefl, if_false] at hxy
          rcases Nat.lt_trichotomy a c with h2 | h2 | h2
          · simp [h2]
          · subst h2
            simp only [Nat.lt_irrefl, if_false] at hyz ⊢
            exact ih bs cs hxy hyz
          · simp [h2, Nat.lt_asymm h2] at hyz
        · simp [h1, Nat.lt_asymm h1] at hxy

theorem lexLt_connex :
    ∀ x y : List Nat, lexLt x y = false → lexLt y x = false → x = y := by
  intro x
  induction x with
  | nil =>
    intro y hxy _
    cases y with
    | nil => rfl
    | cons b bs => simp [lexLt] at hxy
  | cons a as ih =>
    intro y hxy hyx
    cases y with
    | nil => simp [lexLt] at hyx
    | cons b bs =>
      simp only [lexLt] at hxy hyx
      rcases Nat.lt_trichotomy a b with h1 | h1 | h1
      · simp [h1] at hxy
      · subst h1
        simp only [Nat.lt_irrefl, if_false] at hxy hyx
        rw [ih bs hxy hyx]
      · simp [h1] at hyx

theorem lexLe_total (x y : List Nat) : lexLe x y = true ∨ lexLe y x = true := by
  by_cases h : lexLt y x = true
  · right
    simp only [lexLe, lexLt_asymm y x h, Bool.not_false]
  · left
    simp only [lexLe, Bool.not_eq_true] at h ⊢
    simp [h]

theorem lexLe_trans {x y z : List Nat} (h1 : lexLe x y = true) (h2 : lexLe y z = true) :
    lexLe x z = true := by
  simp only [lexLe, Bool.not_eq_true', Bool.not_eq_true] at h1 h2 ⊢
  by_cases hzx : lexLt z x = true
  · by_cases hxy : lexLt x y = true
    · exact absurd (lexLt_trans z x y hzx hxy) (by simp [h2])
    · have := lexLt_connex x y (by simpa using hxy) h1
      subst this
      exact absurd hzx (by simp [h2])
  · simpa using hzx

/-- First-occurrence deduplication, matching `pandas.Series.unique`. -/
def pdUniqueAux [BEq α] : List α → List α → List α
  | [], _ => []
  | a :: l, seen => if seen.contains a then pdUniqueAux l seen else a :: pdUniqueAux l (a :: seen)

/-- Distinct values of a list in order of first appearance (`Series.unique`). -/
def pdUnique [BEq α] (l : List α) : List α := pdUniqueAux l []

theorem mem_pdUniqueAux [BEq α] [LawfulBEq α] (x : α) :
    ∀ (l seen : List α), x ∈ pdUniqueAux l seen ↔ x ∈ l ∧ ¬ x ∈ seen := by
  intro l
  induction l with
  | nil => intro seen; simp [pdUniqueAux]
  | cons a l ih =>
    intro seen
    simp only [pdUniqueAux]
    by_cases ha : seen.contains a
    · rw [if_pos ha, ih]
      have haseen : a ∈ seen := by simpa using ha
      constructor
      · rintro ⟨h1, h2⟩
        exact ⟨List.mem_cons_of_mem a h1, h2⟩
      · rintro ⟨h1, h2⟩
        rcases List.mem_cons.mp h1 with rfl | h1
        · exact absurd haseen h2
        · exact ⟨h1, h2⟩
    · rw [if_neg ha, List.mem_cons, ih]
      have haseen : ¬ a ∈ seen := by simpa using ha
      constructor
      · rintro (rfl | ⟨h1, h2⟩)
        · exact ⟨List.mem_cons_self x l, haseen⟩
        · refine ⟨List.mem_cons_of_mem a h1, fun hx => h2 (List.mem_cons_of_mem a hx)⟩
      · rintro ⟨h1, h2⟩
        by_cases hxa : x = a
        · exact Or.inl hxa
        · rcases List.mem_cons.mp h1 with rfl | h1
          · exact Or.inl rfl
          · right
            refine ⟨h1, fun hx => ?_⟩
            rcases List.mem_cons.mp hx with rfl | hx
            · exact hxa rfl
            · exact h2 hx

theorem mem_pdUnique [BEq α] [LawfulBEq α] (x : α) (l : List α) :
    x ∈ pdUnique l ↔ x ∈ l := by
  simp [pdUnique, mem_pdUniqueAux]

/-- Fuel-driven decimal rendering of a natural number as character codes,
matching Python `str(n)` for naturals.  The fuel bounds the number of digit
extractions; `strOfNat` supplies enough. -/
def strOfNatAux : Nat → Nat → List Nat
  | 0, _ => []
  | fuel + 1, n => if n < 10 then [n + 48] else strOfNatAux fuel (n / 10) ++ [n % 10 + 48]

/-- Character codes of `str(n)` (Python decimal rendering). -/
def strOfNat (n : Nat) : List Nat := strOfNatAux (n + 1) n

theorem strOfNatAux_congr :
    ∀ f1 : Nat, ∀ f2 n : Nat, n < f1 → n < f2 → strOfNatAux f1 n = strOfNatAux f2 n := by
  intro f1
  induction f1 with
  | zero => intro f2 n h1 _; omega
  | succ f ih =>
    intro f2 n h1 h2
    cases f2 with
    | zero => omega
    | succ f2 =>
      simp only [strOfNatAux]
      by_cases hn : n < 10
      · simp [hn]
      · rw [if_neg hn, if_neg hn]
        have hd : n / 10 < n := Nat.div_lt_self (by omega) (by omega)
        rw [ih f2 (n / 10) (by omega) (by omega)]

theorem strOfNat_lt10 {n : Nat} (h : n < 10) : strOfNat n = [n + 48] := by
  simp [strOfNat, strOfNatAux, h]

theorem strOfNat_ge10 {n : Nat} (h : 10 ≤ n) :
    strOfNat n = strOfNat (n / 10) ++ [n % 10 + 48] := by
  have hd : n / 10 < n := Nat.div_lt_self (by omega) (by omega)
  have h1 : strOfNat n = strOfNatAux n (n / 10) ++ [n % 10 + 48] := by
    simp [strOfNat, strOfNatAux, Nat.not_lt.mpr h]
  rw [h1, strOfNatAux_congr n (n / 10 + 1) (n / 10) (by omega) (by omega)]
  rfl

/-- One row of the loaded `cpi_data` table.  The SQL query already restricts
to `subgroup IS NULL OR subgroup = ''` and drops the `series`/`subgroup`
columns from further use, and the `xaxislabel` column is never read by any
callback, so those are not modelled.  `index`/`inflation` values are carried
as rationals; no callback computes with them. -/
structure Row where
  year : Nat
  month_number : Nat
  month : String
  state : String
  sector : String
  grp : String
  base_year : String
  index : Rat
  inflation : Rat
deriving DecidableEq, Repr

/-- Left-pad a character-code string with zeros to width 2 (`str.zfill(2)`). -/
def zfill2 (s : List Nat) : List Nat :=
  if s.length < 2 then List.replicate (2 - s.length) 48 ++ s else s

/-- The `year_month` column: `str(year) + str(month_number).zfill(2)`
(lines 42-43 of `cpi_update.py`). -/
def year_month (r : Row) : List Nat := strOfNat r.year ++ zfill2 (strOfNat r.month_number)

/-- The `year_month2` column: `year_month[:4] + '-' + year_month[4:]`
(line 45 of `cpi_update.py`); 45 is the character code of the dash. -/
def year_month2 (r : Row) : List Nat :=
  (year_month r).take 4 ++ [45] ++ (year_month r).drop 4

/-- The integer key `year*100 + month_number` the spec sorts by. -/
def ymKey (r : Row) : Nat := r.year * 100 + r.month_number

/-- Rows whose year is 4-digit and whose month number is in 1..12, the shape
the CPI fact table provides. -/
def validRow (r : Row) : Prop :=
  1000 ≤ r.year ∧ r.year ≤ 9999 ∧ 1 ≤ r.month_number ∧ r.month_number ≤ 12

instance : DecidablePred validRow := fun r => by unfold validRow; infer_instance

theorem strOfNat_digits4 {y : Nat} (h1 : 1000 ≤ y) (h2 : y ≤ 9999) :
    strOfNat y = [y / 1000 + 48, y / 100 % 10 + 48, y / 10 % 10 + 48, y % 10 + 48] := by
  have e1 : strOfNat y = strOfNat (y / 10) ++ [y % 10 + 48] := strOfNat_ge10 (by omega)
  have e2 : strOfNat (y / 10) = strOfNat (y / 10 / 10) ++ [y / 10 % 10 + 48] :=
    strOfNat_ge10 (by omega)
  have e3 : strOfNat (y / 10 / 10) = strOfNat (y / 10 / 10 / 10) ++ [y / 10 / 10 % 10 + 48] :=
    strOfNat_ge10 (by omega)
  have e4 : strOfNat (y / 10 / 10 / 10) = [y / 10 / 10 / 10 + 48] := strOfNat_lt10 (by omega)
  rw [e1, e2, e3, e4]
  have d1 : y / 10 / 10 / 10 = y / 1000 := by omega
  have d2 : y / 10 / 10 % 10 = y / 100 % 10 := by omega
  have d3 : y / 10 % 10 = y / 10 % 10 := rfl
  rw [d1, d2]
  rfl

theorem zfill2_strOfNat {m : Nat} (h : m ≤ 99) :
    zfill2 (strOfNat m) = [m / 10 + 48, m % 10 + 48] := by
  by_cases hm : m < 10
  · rw [strOfNat_lt10 hm]
    have : m / 10 = 0 := by omega
    have hmod : m % 10 = m := by omega
    simp [zfill2, this, hmod]
  · have e1 : strOfNat m = strOfNat (m / 10) ++ [m % 10 + 48] := strOfNat_ge10 (by omega)
    have e2 : strOfNat (m / 10) = [m / 10 + 48] := strOfNat_lt10 (by omega)
    rw [e1, e2]
    simp [zfill2]

theorem year_month2_eq {r : Row} (h : validRow r) :
    year_month2 r = [r.year / 1000 + 48, r.year / 100 % 10 + 48, r.year / 10 % 10 + 48,
      r.year % 10 + 48, 45, r.month_number / 10 + 48, r.month_number % 10 + 48] := by
  obtain ⟨h1, h2, h3, h4⟩ := h
  rw [year_month2, year_month, strOfNat_digits4 h1 h2, zfill2_strOfNat (by omega)]
  rfl

/-- The row ordering pandas uses for `sort_values(by='year_month2')` when the
column holds strings: lexicographic comparison of the key strings. -/
def rowLe (a b : Row) : Prop := lexLe (year_month2 a) (year_month2 b) = true

instance : DecidableRel rowLe := fun a b => by unfold rowLe; infer_instance

instance : IsTotal Row rowLe := ⟨fun a b => lexLe_total (year_month2 a) (year_month2 b)⟩

instance : IsTrans Row rowLe := ⟨fun _ _ _ h1 h2 => lexLe_trans h1 h2⟩

theorem lexLt_cons_lt {a b : Nat} (h : a < b) (as bs : List Nat) :
    lexLt (a :: as) (b :: bs) = true := by simp [lexLt, h]

theorem lexLt_cons_gt {a b : Nat} (h : b < a) (as bs : List Nat) :
    lexLt (a :: as) (b :: bs) = false := by simp [lexLt, h, Nat.lt_asymm h]

theorem lexLt_cons_eq (a : Nat) (as bs : List Nat) :
    lexLt (a :: as) (a :: bs) = lexLt as bs := by simp [lexLt]

theorem lexLe_digits_iff (p q r s t u pb qb rb sb tb ub : Nat)
    (h2 : q ≤ 9) (h3 : r ≤ 9) (h4 : s ≤ 9) (h5 : t ≤ 9) (h6 : u ≤ 9)
    (h8 : qb ≤ 9) (h9 : rb ≤ 9) (h10 : sb ≤ 9) (h11 : tb ≤ 9) (h12 : ub ≤ 9) :
    (lexLe [p + 48, q + 48, r + 48, s + 48, 45, t + 48, u + 48]
        [pb + 48, qb + 48, rb + 48, sb + 48, 45, tb + 48, ub + 48] = true) ↔
      ((p * 1000 + q * 100 + r * 10 + s) * 100 + (t * 10 + u) ≤
        (pb * 1000 + qb * 100 + rb * 10 + sb) * 100 + (tb * 10 + ub)) := by
  simp only [lexLe, Bool.not_eq_true']
  rcases Nat.lt_trichotomy p pb with h | h | h
  · rw [lexLt_cons_gt (by omega)]
    simp only [eq_self_iff_true, true_iff]
    omega
  · subst h
    rw [lexLt_cons_eq]
    rcases Nat.lt_trichotomy q qb with h | h | h
    · rw [lexLt_cons_gt (by omega)]
      simp only [eq_self_iff_true, true_iff]
      omega
    · subst h
      rw [lexLt_cons_eq]
      rcases Nat.lt_trichotomy r rb with h | h | h
      · rw [lexLt_cons_gt (by omega)]
        simp only [eq_self_iff_true, true_iff]
        omega
      · subst h
        rw [lexLt_cons_eq]
        rcases Nat.lt_trichotomy s sb with h | h | h
        · rw [lexLt_cons_gt (by omega)]
          simp only [eq_self_iff_true, true_iff]
          omega
        · subst h
          rw [lexLt_cons_eq, lexLt_cons_eq]
          rcases Nat.lt_trichotomy t tb with h | h | h
          · rw [lexLt_cons_gt (by omega)]
            simp only [eq_self_iff_true, true_iff]
            omega
          · subst h
            rw [lexLt_cons_eq]
            rcases Nat.lt_trichotomy u ub with h | h | h
            · rw [lexLt_cons_gt (by omega)]
              simp only [eq_self_iff_true, true_iff]
              omega
            · subst h
              rw [lexLt_cons_eq]
              simp only [lexLt, eq_self_iff_true, true_iff]
              omega
            · rw [lexLt_cons_lt (by omega)]
              simp only [Bool.true_eq_false, false_iff]
              omega
          · rw [lexLt_cons_lt (by omega)]
            simp only [Bool.true_eq_false, false_iff]
            omega
        · rw [lexLt_cons_lt (by omega)]
          simp only [Bool.true_eq_false, false_iff]
          omega
      · rw [lexLt_cons_lt (by omega)]
        simp only [Bool.true_eq_false, false_iff]
        omega
    · rw [lexLt_cons_lt (by omega)]
      simp only [Bool.true_eq_false, false_iff]
      omega
  · rw [lexLt_cons_lt (by omega)]
    simp only [Bool.true_eq_false, false_iff]
    omega

theorem rowLe_iff_key {a b : Row} (ha : validRow a) (hb : validRow b) :
    rowLe a b ↔ ymKey a ≤ ymKey b := by
  obtain ⟨ha1, ha2, ha3, ha4⟩ := ha
  obtain ⟨hb1, hb2, hb3, hb4⟩ := hb
  rw [rowLe, year_month2_eq ⟨ha1, ha2, ha3, ha4⟩, year_month2_eq ⟨hb1, hb2, hb3, hb4⟩,
    lexLe_digits_iff _ _ _ _ _ _ _ _ _ _ _ _
      (by omega) (by omega) (by omega) (by omega) (by omega)
      (by omega) (by omega) (by omega) (by omega) (by omega)]
  simp only [ymKey]
  omega

/-- A value of the year multi-select: either the `'Select All'` sentinel or a
concrete year.  (Dash delivers the default as the bare string `"Select All"`;
Python's `'Select All' in selected_years` is then a substring test that also
succeeds, so the bare-string default behaves as a one-element selection
containing the sentinel.) -/
inductive YearSel where
  | selectAll : YearSel
  | year (y : Nat) : YearSel
deriving DecidableEq, Repr

/-- Resolution of the year selection, as done identically at the top of
`update_plot` (lines 320-323) and `download_plot` (lines 404-407):
if `'Select All' in selected_years` take `cpi_data['year'].unique()`,
otherwise drop any stray `'Select All'` from the explicit selection. -/
def resolveYears (table : List Row) (sel : List YearSel) : List Nat :=
  if YearSel.selectAll ∈ sel then pdUnique (table.map Row.year)
  else sel.filterMap (fun v => match v with | .selectAll => none | .year y => some y)

/-- The `update_year_dropdown` callback (lines 275-280): year options offered
for a base year; `sorted(filtered_years)` with a leading `'Select All'`. -/
def update_year_dropdown (table : List Row) (selected_base_year : Option String) :
    List YearSel :=
  match selected_base_year with
  | some b =>
    YearSel.selectAll ::
      (List.insertionSort (· ≤ ·)
        (pdUnique ((table.filter (fun r => r.base_year == b)).map Row.year))).map YearSel.year
  | none =>
    YearSel.selectAll ::
      (List.insertionSort (· ≤ ·) (pdUnique (table.map Row.year))).map YearSel.year

/-- The `update_sector_dropdown` callback (lines 288-291): sectors of the rows
whose `state` equals the selection.  A pandas comparison of a column with
`None` matches no row, so an absent state yields the empty option list. -/
def update_sector_dropdown (table : List Row) (selected_state : Option String) :
    List String :=
  pdUnique ((table.filter (fun r =>
    match selected_state with
    | none => false
    | some s => r.state == s)).map Row.sector)

/-- The `update_group_dropdown` callback (lines 298-303): groups of the rows
whose `sector` equals the selection; with no selection (`None`), groups of the
whole table. -/
def update_group_dropdown (table : List Row) (selected_sector : Option String) :
    List String :=
  match selected_sector with
  | some s => pdUnique ((table.filter (fun r => r.sector == s)).map Row.grp)
  | none => pdUnique (table.map Row.grp)

/-- Font settings passed to `update_layout` (identical constants at all four
call sites). -/
structure FontSpec where
  size : Nat
  family : String
  color : String
  weight : String
deriving DecidableEq, Repr

/-- The `yaxis=dict(...)` settings of `update_layout`. -/
structure YAxisSpec where
  title : String
  side : String
  color : String
  showgrid : Bool
deriving DecidableEq, Repr

/-- The `xaxis=dict(...)` settings of `update_layout`. -/
structure XAxisSpec where
  showgrid : Bool
  gridcolor : String
  tickangle : Nat
deriving DecidableEq, Repr

/-- The layout resulting from one `update_layout` call.  Both the keyword
`yaxis_title`/`xaxis_title` strings and the explicit `yaxis`/`xaxis` dicts
are recorded, exactly as the source passes both. -/
structure Layout where
  xaxis_title : String
  yaxis_title : String
  template : String
  title_font : FontSpec
  xaxis_title_font : FontSpec
  yaxis_title_font : FontSpec
  font_color : String
  yaxis : YAxisSpec
  xaxis : XAxisSpec
  margin_t : Nat
  title_x : Rat
deriving DecidableEq, Repr

/-- One `go.Scatter` trace: the x values are `year_month2` strings
(character-code lists), the y values the plotted column. -/
structure Trace where
  x : List (List Nat)
  y : List Rat
  mode : String
  name : String
  line_color : String
  yaxisRef : String
  hovertemplate : String
deriving DecidableEq, Repr

/-- A plotly figure: traces plus the layout, `none` for a bare `go.Figure()`
that never received `update_layout`. -/
structure Figure where
  traces : List Trace
  layout : Option Layout
deriving DecidableEq, Repr

/-- Style-only view of a trace (everything except the data columns). -/
def traceStyle (t : Trace) : String × String × String × String × String :=
  (t.mode, t.name, t.line_color, t.yaxisRef, t.hovertemplate)

/-- Figure construction of `update_plot` (lines 331-379) applied to the
already-filtered rows: Index branch on `plot_type == 'Index'`, otherwise the
Inflation branch. -/
def mkFigureUpdate (rows : List Row) (plot_type : String) : Figure :=
  if plot_type == "Index" then
    let tr : Trace :=
      { x := rows.map year_month2, y := rows.map Row.index,
        mode := "lines+markers", name := "Index", line_color := "#0F4366", yaxisRef := "y",
        hovertemplate := "%\x7bx\x7d, Index %\x7by:.2f\x7d<extra></extra>" }
    let ly : Layout :=
      { xaxis_title := "Year", yaxis_title := "Index", template := "plotly_white",
        title_font := { size := 25, family := "Arial, sans-serif", color := "black", weight := "bold" },
        xaxis_title_font := { size := 18, family := "Arial, sans-serif", color := "black", weight := "bold" },
        yaxis_title_font := { size := 18, family := "Arial, sans-serif", color := "black", weight := "bold" },
        font_color := "black",
        yaxis := { title := "<b>Index</b>", side := "left", color := "black", showgrid := true },
        xaxis := { showgrid := true, gridcolor := "lightgray", tickangle := 270 },
        margin_t := 0, title_x := 1/2 }
    { traces := [tr], layout := some ly }
  else
    let tr : Trace :=
      { x := rows.map year_month2, y := rows.map Row.inflation,
        mode := "lines+markers", name := "Inflation", line_color := "#EF553B", yaxisRef := "y",
        hovertemplate := "%\x7bx\x7d, Inflation: %\x7by:.2f\x7d%<extra></extra>" }
    let ly : Layout :=
      { xaxis_title := "Year", yaxis_title := "Inflation (in %)", template := "plotly_white",
        title_font := { size := 25, family := "Arial, sans-serif", color := "black", weight := "bold" },
        xaxis_title_font := { size := 18, family := "Arial, sans-serif", color := "black", weight := "bold" },
        yaxis_title_font := { size := 18, family := "Arial, sans-serif", color := "black", weight := "bold" },
        font_color := "black",
        yaxis := { title := "<b>Inflation</b>", side := "left", color := "black", showgrid := true },
        xaxis := { showgrid := true, gridcolor := "lightgray", tickangle := 270 },
        margin_t := 0, title_x := 1/2 }
    { traces := [tr], layout := some ly }

/-- Figure construction of `download_plot` (lines 413-459): Index branch,
`elif` Inflation branch, otherwise the bare `go.Figure()`. -/
def mkFigureDownload (rows : List Row) (plot_type : String) : Figure :=
  if plot_type == "Index" then
    let tr : Trace :=
      { x := rows.map year_month2, y := rows.map Row.index,
        mode := "lines+markers", name := "Index", line_color := "#0F4366", yaxisRef := "y",
        hovertemplate := "%\x7bx\x7d, Index %\x7by:.2f\x7d<extra></extra>" }
    let ly : Layout :=
      { xaxis_title := "Year", yaxis_title := "Index", template := "plotly_white",
        title_font := { size := 25, family := "Arial, sans-serif", color := "black", weight := "bold" },
        xaxis_title_font := { size := 18, family := "Arial, sans-serif", color := "black", weight := "bold" },
        yaxis_title_font := { size := 18, family := "Arial, sans-serif", color := "black", weight := "bold" },
        font_color := "black",
        yaxis := { title := "<b>Index</b>", side := "left", color := "black", showgrid := true },
        xaxis := { showgrid := true, gridcolor := "lightgray", tickangle := 270 },
        margin_t := 0, title_x := 1/2 }
    { traces := [tr], layout := some ly }
  else if plot_type == "Inflation" then
    let tr : Trace :=
      { x := rows.map year_month2, y := rows.map Row.inflation,
        mode := "lines+markers", name := "Inflation", line_color := "#EF553B", yaxisRef := "y",
        hovertemplate := "%\x7bx\x7d, Inflation: %\x7by:.2f\x7d%<extra></extra>" }
    let ly : Layout :=
      { xaxis_title := "Year", yaxis_title := "Inflation (in %)", template := "plotly_white",
        title_font := { size := 25, family := "Arial, sans-serif", color := "black", weight := "bold" },
        xaxis_title_font := { size := 18, family := "Arial, sans-serif", color := "black", weight := "bold" },
        yaxis_title_font := { size := 18, family := "Arial, sans-serif", color := "black", weight := "bold" },
        font_color := "black",
        yaxis := { title := "<b>Inflation</b>", side := "left", color := "black", showgrid := true },
        xaxis := { showgrid := true, gridcolor := "lightgray", tickangle := 270 },
        margin_t := 0, title_x := 1/2 }
    { traces := [tr], layout := some ly }
  else
    { traces := [], layout := none }

/-- Row selection of `update_plot` (lines 319-328): resolve the year
selection, filter by year membership, then by state, then by sector, group
and base year, then sort by the `year_month2` string.  (The initial
`filtered_df = cpi_data.copy()` on line 319 is immediately overwritten on
line 325 and has no effect.) -/
def selectUpdate (table : List Row) (state sector group base : String)
    (sel : List YearSel) : List Row :=
  List.insertionSort rowLe
    (((table.filter (fun r => (resolveYears table sel).contains r.year)).filter
        (fun r => r.state == state)).filter
      (fun r => r.sector == sector && r.grp == group && r.base_year == base))

/-- Row selection of `download_plot` (lines 403-411): the year selection is
resolved (lines 404-407) but never applied — the path filters only by state,
sector, group and base year before sorting by `year_month2`. -/
def selectDownload (table : List Row) (state sector group base : String)
    (sel : List YearSel) : List Row :=
  List.insertionSort rowLe
    ((table.filter (fun r => r.state == state)).filter
      (fun r => r.sector == sector && r.grp == group && r.base_year == base))

/-- The figure the Apply render builds from a complete filter selection. -/
def update_fig (table : List Row) (state sector group plot_type : String)
    (sel : List YearSel) (base : String) : Figure :=
  mkFigureUpdate (selectUpdate table state sector group base sel) plot_type

/-- The figure the Download action serializes from the same inputs. -/
def download_fig (table : List Row) (state sector group plot_type : String)
    (sel : List YearSel) (base : String) : Figure :=
  mkFigureDownload (selectDownload table state sector group base sel) plot_type

/-- Default dropdown values (`get_default_dropdown_values`, lines 68-73). -/
def get_default_dropdown_values : String × String × String × String :=
  ("All India", "Combined", "General", "Index")

/-- The `update_plot` callback (lines 317-382) including its gating: render
only when the Apply button has been clicked or the current scalar selection
equals the defaults; otherwise return a bare `go.Figure()`. -/
def update_plot (n_clicks : Nat) (table : List Row)
    (state sector group plot_type : String) (sel : List YearSel) (base : String) : Figure :=
  if n_clicks > 0 ∨ (state, sector, group, plot_type) = get_default_dropdown_values then
    update_fig table state sector group plot_type sel base
  else
    { traces := [], layout := none }

/-- The `download_plot` callback (lines 396-473) including its gating on the
Dash callback context: `None` unless the trigger is the download button. -/
def download_plot (triggered : Option String) (table : List Row)
    (state sector group plot_type : String) (sel : List YearSel) (base : String) :
    Option Figure :=
  match triggered with
  | none => none
  | some button_id =>
    if button_id == "download-button" then
      some (download_fig table state sector group plot_type sel base)
    else
      none

/-- One user interaction handled by a callback. -/
inductive Interaction where
  | baseYearChange (selected_base_year : Option String) : Interaction
  | stateChange (selected_state : Option String) : Interaction
  | sectorChange (selected_sector : Option String) : Interaction
  | applyClick (n_clicks : Nat) (state sector group plot_type : String)
      (sel : List YearSel) (base : String) : Interaction
  | downloadClick (triggered : Option String) (state sector group plot_type : String)
      (sel : List YearSel) (base : String) : Interaction

/-- What a callback returns to the UI layer. -/
inductive CallbackOutput where
  | yearOptions (o : List YearSel) : CallbackOutput
  | sectorOptions (o : List String) : CallbackOutput
  | groupOptions (o : List String) : CallbackOutput
  | figure (f : Figure) : CallbackOutput
  | download (d : Option Figure) : CallbackOutput

/-- One callback invocation as a state transformer on the shared `cpi_data`
table.  Every pandas operation the callbacks perform (boolean-mask
selection, `copy`, `sort_values` with the default `inplace=False`, `unique`,
`isin`) returns a fresh object, and no callback rebinds the global
`cpi_data`, so the table component is passed through unchanged. -/
def appStep (table : List Row) : Interaction → List Row × CallbackOutput
  | .baseYearChange b => (table, .yearOptions (update_year_dropdown table b))
  | .stateChange s => (table, .sectorOptions (update_sector_dropdown table s))
  | .sectorChange s => (table, .groupOptions (update_group_dropdown table s))
  | .applyClick n s sec g pt sel b => (table, .figure (update_plot n table s sec g pt sel b))
  | .downloadClick trig s sec g pt sel b =>
    (table, .download (download_plot trig table s sec g pt sel b))

/-- The table as seen after a sequence of user interactions. -/
def runApp (table : List Row) (events : List Interaction) : List Row :=
  events.foldl (fun t e => (appStep t e).1) table

theorem appStep_fst (table : List Row) (e : Interaction) : (appStep table e).1 = table := by
  cases e <;> rfl

/-- Membership characterisation of the year-resolution step. -/
theorem mem_resolveYears (table : List Row) (sel : List YearSel) (y : Nat) :
    y ∈ resolveYears table sel ↔
      if YearSel.selectAll ∈ sel then y ∈ table.map Row.year else YearSel.year y ∈ sel := by
  unfold resolveYears
  by_cases h : YearSel.selectAll ∈ sel
  · rw [if_pos h, if_pos h, mem_pdUnique]
  · rw [if_neg h, if_neg h, List.mem_filterMap]
    constructor
    · rintro ⟨v, hv, he⟩
      cases v with
      | selectAll => simp at he
      | year z =>
        simp only [Option.some.injEq] at he
        subst he
        exact hv
    · intro hv
      exact ⟨YearSel.year y, hv, rfl⟩

/-- Membership characterisation of the interactive path's row selection. -/
theorem mem_selectUpdate (table : List Row) (state sector group base : String)
    (sel : List YearSel) (r : Row) :
    r ∈ selectUpdate table state sector group base sel ↔
      r ∈ table ∧ r.state = state ∧ r.sector = sector ∧ r.grp = group ∧
        r.base_year = base ∧ r.year ∈ resolveYears table sel := by
  unfold selectUpdate
  rw [(List.perm_insertionSort rowLe _).mem_iff]
  simp only [List.mem_filter, Bool.and_eq_true, beq_iff_eq, List.elem_iff]
  tauto

/-- Membership characterisation of the download path's row selection: the
year constraint is absent. -/
theorem mem_selectDownload (table : List Row) (state sector group base : String)
    (sel : List YearSel) (r : Row) :
    r ∈ selectDownload table state sector group base sel ↔
      r ∈ table ∧ r.state = state ∧ r.sector = sector ∧ r.grp = group ∧
        r.base_year = base := by
  unfold selectDownload
  rw [(List.perm_insertionSort rowLe _).mem_iff]
  simp only [List.mem_filter, Bool.and_eq_true, beq_iff_eq]
  tauto

/-- A January 2020 row with base year 2012, used as a concrete instance. -/
def rowJan : Row :=
  { year := 2020, month_number := 1, month := "January", state := "StateA",
    sector := "Combined", grp := "General", base_year := "2012", index := 150,
    inflation := 5 }

/-- A February 2021 row with base year 2012, used as a concrete instance. -/
def rowFeb : Row :=
  { year := 2021, month_number := 2, month := "February", state := "StateA",
    sector := "Combined", grp := "General", base_year := "2012", index := 151,
    inflation := 6 }

/-- A March 2010 row with base year 2010, used as a concrete instance. -/
def rowOld : Row :=
  { year := 2010, month_number := 3, month := "March", state := "StateA",
    sector := "Combined", grp := "General", base_year := "2010", index := 100,
    inflation := 4 }

/-- A concrete table with two rows of the same base year in different years. -/
def tableTwo : List Row := [rowJan, rowFeb]

/-- A concrete table with two rows of different base years. -/
def tableBase : List Row := [rowJan, rowOld]

/-- C2: the download path's row selection does not enforce the resolved year
set: with the explicit selection {2021}, the 2020 row is still selected. -/
theorem C2_counterexample :
    rowJan ∈ selectDownload tableTwo "StateA" "Combined" "General" "2012"
        [YearSel.year 2021] ∧
      rowJan.year ∉ resolveYears tableTwo [YearSel.year 2021] := by
  decide

/-- C2 (amended): the interactive path's row selection returns exactly the
rows satisfying the four equality constraints and year membership in the
resolved year set; the download path's selection returns exactly the rows
satisfying the four equality constraints, with no year constraint. -/
theorem C2_selection_exact (table : List Row) (state sector group base : String)
    (sel : List YearSel) (r : Row) :
    (r ∈ selectUpdate table state sector group base sel ↔
      r ∈ table ∧ r.state = state ∧ r.sector = sector ∧ r.grp = group ∧
        r.base_year = base ∧ r.year ∈ resolveYears table sel) ∧
    (r ∈ selectDownload table state sector group base sel ↔
      r ∈ table ∧ r.state = state ∧ r.sector = sector ∧ r.grp = group ∧
        r.base_year = base) :=
  ⟨mem_selectUpdate table state sector group base sel r,
    mem_selectDownload table state sector group base sel r⟩

/-- C3: resolving the sentinel does not restrict to the selected base year:
in a table whose base year 2012 has only the year 2020, the resolved set
still contains 2010, a year present only under base year 2010. -/
theorem C3_counterexample :
    2010 ∈ resolveYears tableBase [YearSel.selectAll] ∧
      2010 ∉ (tableBase.filter (fun r => r.base_year == "2012")).map Row.year := by
  decide

/-- C3 (amended): resolving a selection containing the sentinel yields
exactly the set of years present in the whole table, irrespective of the
selected base year. -/
theorem C3_sentinel_whole_table (table : List Row) (sel : List YearSel) (y : Nat)
    (h : YearSel.selectAll ∈ sel) :
    y ∈ resolveYears table sel ↔ y ∈ table.map Row.year := by
  rw [mem_resolveYears, if_pos h]

theorem C3_witness :
    YearSel.selectAll ∈ [YearSel.selectAll] ∧
      (2010 ∈ resolveYears tableBase [YearSel.selectAll] ↔
        2010 ∈ tableBase.map Row.year) :=
  ⟨by decide, C3_sentinel_whole_table tableBase [YearSel.selectAll] 2010 (by decide)⟩

/-- C5: the resolved year set is the distinct years of the whole table when
the selection is or contains the sentinel, and otherwise the explicit
selection with any stray sentinel removed. -/
theorem C5_year_resolution (table : List Row) (sel : List YearSel) (y : Nat) :
    y ∈ resolveYears table sel ↔
      if YearSel.selectAll ∈ sel then y ∈ table.map Row.year
      else YearSel.year y ∈ sel :=
  mem_resolveYears table sel y

/-- C9: no callback mutates the shared table: after any sequence of
interactions the table is the one loaded at startup. -/
theorem C9_table_unchanged (table : List Row) (events : List Interaction) :
    runApp table events = table := by
  induction events with
  | nil => rfl
  | cons e es ih =>
    have h1 : (appStep table e).1 = table := appStep_fst table e
    simp only [runApp, List.foldl_cons, h1]
    exact ih

/-- C10: the interactive render produces a figure with a trace and a layout
exactly when the Apply button has been clicked or the scalar selection equals
the built-in defaults; otherwise it is the bare empty figure. -/
theorem C10_gating (n_clicks : Nat) (table : List Row)
    (state sector group plot_type : String) (sel : List YearSel) (base : String) :
    ((update_plot n_clicks table state sector group plot_type sel base).traces = [] ∧
      (update_plot n_clicks table state sector group plot_type sel base).layout = none) ↔
      ¬(n_clicks > 0 ∨ (state, sector, group, plot_type) = get_default_dropdown_values) := by
  unfold update_plot
  by_cases h : n_clicks > 0 ∨ (state, sector, group, plot_type) = get_default_dropdown_values
  · rw [if_pos h]
    simp only [h, not_true, iff_false]
    intro hc
    unfold update_fig mkFigureUpdate at hc
    by_cases hpt : (plot_type == "Index") = true
    · rw [if_pos hpt] at hc
      simp at hc
    · rw [if_neg hpt] at hc
      simp at hc
  · rw [if_neg h]
    simp [h]

theorem pairwise_mono_of_mem {α : Type} {l : List α} {R S : α → α → Prop}
    (h : ∀ a ∈ l, ∀ b ∈ l, R a b → S a b) (hp : l.Pairwise R) : l.Pairwise S := by
  induction l with
  | nil => exact List.Pairwise.nil
  | cons a t ih =>
    rcases List.pairwise_cons.mp hp with ⟨h1, h2⟩
    refine List.pairwise_cons.mpr ⟨fun b hb => ?_, ?_⟩
    · exact h a (List.mem_cons_self a t) b (List.mem_cons_of_mem a hb) (h1 b hb)
    · exact ih
        (fun x hx y hy => h x (List.mem_cons_of_mem a hx) y (List.mem_cons_of_mem a hy)) h2

/-- C4: on a table of 4-digit years and months 1..12, the interactive
selection's output — sorted by the string key year_month2 — is monotonically
non-decreasing in the integer key year*100 + month_number. -/
theorem C4_output_sorted_by_key (table : List Row) (state sector group base : String)
    (sel : List YearSel) (h : ∀ r ∈ table, validRow r) :
    List.Sorted (fun a b => ymKey a ≤ ymKey b)
      (selectUpdate table state sector group base sel) := by
  have hs : List.Sorted rowLe (selectUpdate table state sector group base sel) :=
    List.sorted_insertionSort rowLe _
  refine pairwise_mono_of_mem ?_ hs
  intro a ha b hb hr
  have hav : validRow a :=
    h a ((mem_selectUpdate table state sector group base sel a).mp ha).1
  have hbv : validRow b :=
    h b ((mem_selectUpdate table state sector group base sel b).mp hb).1
  exact (rowLe_iff_key hav hbv).mp hr

theorem C4_witness :
    (∀ r ∈ tableTwo, validRow r) ∧
      List.Sorted (fun a b => ymKey a ≤ ymKey b)
        (selectUpdate tableTwo "StateA" "Combined" "General" "2012" [YearSel.selectAll]) :=
  ⟨by decide,
    C4_output_sorted_by_key tableTwo "StateA" "Combined" "General" "2012"
      [YearSel.selectAll] (by decide)⟩

/-- C6: the sector menu for a present state is not a subset of the sector
menu for an absent state: comparing the state column with `None` matches no
row, so the unset-state menu is empty, not the whole-table sector set. -/
theorem C6_counterexample :
    "Combined" ∈ update_sector_dropdown tableTwo (some "StateA") ∧
      "Combined" ∉ update_sector_dropdown tableTwo none := by
  decide

/-- C6 (amended): for every state argument the sector menu is a subset of
the sectors occurring in the whole table, and with the state unset the menu
is empty (pandas equality with None matches no row), not the whole-table
sector set. -/
theorem C6_sector_scope (table : List Row) (selected_state : Option String) :
    (∀ x ∈ update_sector_dropdown table selected_state, x ∈ table.map Row.sector) ∧
      update_sector_dropdown table none = [] := by
  constructor
  · intro x hx
    unfold update_sector_dropdown at hx
    rw [mem_pdUnique] at hx
    rcases List.mem_map.mp hx with ⟨r, hr, he⟩
    exact he ▸ List.mem_map_of_mem Row.sector (List.mem_of_mem_filter hr)
  · unfold update_sector_dropdown
    have h0 : (table.filter (fun r =>
        match (none : Option String) with
        | none => false
        | some s => r.state == s)) = [] := by
      rw [List.filter_eq_nil_iff]
      intro a _
      simp
    rw [h0]
    rfl

theorem C6_witness :
    "Combined" ∈ tableTwo.map Row.sector ∧ update_sector_dropdown tableTwo none = [] :=
  ⟨(C6_sector_scope tableTwo (some "StateA")).1 "Combined" (by decide),
    (C6_sector_scope tableTwo none).2⟩

theorem mkFigureDownload_eq (rows : List Row) (pt : String)
    (h : pt = "Index" ∨ pt = "Inflation") :
    mkFigureDownload rows pt = mkFigureUpdate rows pt := by
  rcases h with rfl | rfl <;> rfl

theorem selectDownload_eq_of_selectAll (table : List Row)
    (state sector group base : String) (sel : List YearSel)
    (h : YearSel.selectAll ∈ sel) :
    selectDownload table state sector group base sel =
      selectUpdate table state sector group base sel := by
  unfold selectUpdate selectDownload
  have hy : table.filter (fun r => (resolveYears table sel).contains r.year) = table := by
    rw [List.filter_eq_self]
    intro a ha
    exact List.elem_iff.mpr
      ((mem_resolveYears table sel a.year).mpr
        (by rw [if_pos h]; exact List.mem_map_of_mem Row.year ha))
  rw [hy]

/-- C1: the figure serialized by Download is not always built from the same
selected row set as the interactive Apply figure: with the explicit year
selection {2021} on a table holding 2020 and 2021, the download figure plots
both years while the Apply figure plots only 2021. -/
theorem C1_counterexample :
    download_fig tableTwo "StateA" "Combined" "General" "Index"
        [YearSel.year 2021] "2012" ≠
      update_fig tableTwo "StateA" "Combined" "General" "Index"
        [YearSel.year 2021] "2012" := by
  decide

/-- C1 (amended): for both indicators the Download figure carries the
identical style parameters (trace mode, name, color, hover format and the
whole layout) as the Apply figure, and whenever the year selection contains
the sentinel the two figures are equal outright; but the download path omits
the year-membership filter, so its row set ignores an explicit year
selection. -/
theorem C1_style_same_rows_differ (table : List Row)
    (state sector group plot_type : String) (sel : List YearSel) (base : String)
    (hpt : plot_type = "Index" ∨ plot_type = "Inflation") :
    (download_fig table state sector group plot_type sel base).layout =
        (update_fig table state sector group plot_type sel base).layout ∧
      (download_fig table state sector group plot_type sel base).traces.map traceStyle =
        (update_fig table state sector group plot_type sel base).traces.map traceStyle ∧
      (YearSel.selectAll ∈ sel →
        download_fig table state sector group plot_type sel base =
          update_fig table state sector group plot_type sel base) := by
  refine ⟨?_, ?_, fun hAll => ?_⟩
  · rcases hpt with rfl | rfl <;> rfl
  · rcases hpt with rfl | rfl <;> rfl
  · unfold download_fig update_fig
    rw [selectDownload_eq_of_selectAll table state sector group base sel hAll,
      mkFigureDownload_eq _ _ hpt]

theorem C1_witness :
    (("Index" : String) = "Index" ∨ ("Index" : String) = "Inflation") ∧
      YearSel.selectAll ∈ [YearSel.selectAll] ∧
      download_fig tableTwo "StateA" "Combined" "General" "Index"
          [YearSel.selectAll] "2012" =
        update_fig tableTwo "StateA" "Combined" "General" "Index"
          [YearSel.selectAll] "2012" :=
  ⟨Or.inl rfl, by decide,
    (C1_style_same_rows_differ tableTwo "StateA" "Combined" "General" "Index"
      [YearSel.selectAll] "2012" (Or.inl rfl)).2.2 (by decide)⟩

/-- C7: projecting an ordered row sequence yields one (x, y) pair per row in
the given order — y from the index column with y-axis title "Index" and the
Index hover format, or y from the inflation column with y-axis title
"Inflation (in %)" and the Inflation hover format — with the series length
equal to the row count and no re-sort. -/
theorem C7_projection (rows : List Row) :
    (∃ t, (mkFigureUpdate rows "Index").traces = [t] ∧
      t.x.length = rows.length ∧ t.y.length = rows.length ∧
      (∀ i : Nat, t.x[i]? = (rows[i]?).map year_month2) ∧
      (∀ i : Nat, t.y[i]? = (rows[i]?).map Row.index) ∧
      t.hovertemplate = "%\x7bx\x7d, Index %\x7by:.2f\x7d<extra></extra>") ∧
    Option.map Layout.yaxis_title (mkFigureUpdate rows "Index").layout = some "Index" ∧
    (∃ t, (mkFigureUpdate rows "Inflation").traces = [t] ∧
      t.x.length = rows.length ∧ t.y.length = rows.length ∧
      (∀ i : Nat, t.x[i]? = (rows[i]?).map year_month2) ∧
      (∀ i : Nat, t.y[i]? = (rows[i]?).map Row.inflation) ∧
      t.hovertemplate = "%\x7bx\x7d, Inflation: %\x7by:.2f\x7d%<extra></extra>") ∧
    Option.map Layout.yaxis_title (mkFigureUpdate rows "Inflation").layout =
      some "Inflation (in %)" := by
  refine ⟨⟨_, rfl, ?_, ?_, ?_, ?_, rfl⟩, rfl, ⟨_, rfl, ?_, ?_, ?_, ?_, rfl⟩, rfl⟩
  · exact List.length_map rows year_month2
  · exact List.length_map rows Row.index
  · intro i
    exact List.getElem?_map year_month2 rows i
  · intro i
    exact List.getElem?_map Row.index rows i
  · exact List.length_map rows year_month2
  · exact List.length_map rows Row.inflation
  · intro i
    exact List.getElem?_map year_month2 rows i
  · intro i
    exact List.getElem?_map Row.inflation rows i

/-- C8: a filter specification that matches zero rows of the table — a
state, sector, group or base-year value occurring in no row, or a disjoint
year selection — still renders: the figure's trace has empty x and y series,
not a failure. -/
theorem C8_empty_selection (table : List Row) (state sector group plot_type : String)
    (sel : List YearSel) (base : String)
    (h : ∀ r ∈ table, ¬(r.state = state ∧ r.sector = sector ∧ r.grp = group ∧
      r.base_year = base ∧ r.year ∈ resolveYears table sel)) :
    ∀ t ∈ (update_fig table state sector group plot_type sel base).traces,
      t.x = [] ∧ t.y = [] := by
  have hsel : selectUpdate table state sector group base sel = [] := by
    rw [List.eq_nil_iff_forall_not_mem]
    intro r hr
    rcases (mem_selectUpdate table state sector group base sel r).mp hr with
      ⟨hmem, h1, h2, h3, h4, h5⟩
    exact h r hmem ⟨h1, h2, h3, h4, h5⟩
  intro t ht
  unfold update_fig at ht
  rw [hsel] at ht
  unfold mkFigureUpdate at ht
  by_cases hpt : (plot_type == "Index") = true
  · rw [if_pos hpt] at ht
    simp only [List.mem_singleton] at ht
    subst ht
    exact ⟨rfl, rfl⟩
  · rw [if_neg hpt] at ht
    simp only [List.mem_singleton] at ht
    subst ht
    exact ⟨rfl, rfl⟩

theorem C8_witness :
    (∀ r ∈ tableTwo, ¬(r.state = "StateB" ∧ r.sector = "Combined" ∧ r.grp = "General" ∧
        r.base_year = "2012" ∧ r.year ∈ resolveYears tableTwo [YearSel.selectAll])) ∧
      ∀ t ∈ (update_fig tableTwo "StateB" "Combined" "General" "Index"
          [YearSel.selectAll] "2012").traces, t.x = [] ∧ t.y = [] :=
  ⟨by decide,
    C8_empty_selection tableTwo "StateB" "Combined" "General" "Index"
      [YearSel.selectAll] "2012" (by decide)⟩

end CPI
